import Mathlib

/-!
Shallow embedding of the VeriCert backend intake pipeline.

Source files embedded:
* `src/unnamed/part_000` — class `PDFValidator` with the static methods
  `validate`, `extractMetadata`, `securityScan`.
* `src/src/routes/verify.ts` — the `POST /api/verify` route handler,
  `getStatusMessage` and `mapVerificationDetails`.

Buffers are `List Nat` (byte values). `Buffer.toString('utf-8')` followed by
case-insensitive substring search over ASCII marker tokens is modelled by
mapping each byte to the character of its code point and lowercasing: for the
ASCII-only marker tokens involved, substring presence under this decoding
agrees with the lossy UTF-8 decoding the source performs, because ASCII bytes
decode to themselves in both and non-ASCII bytes never decode to ASCII
characters in either.

External effects (the pdfjs parse inside `extractMetadata`, the `fetch` to the
authority, `new Date()`, `crypto.randomBytes`) are modelled as explicit inputs
to the embedded functions.
-/

/-- The character-list `pat` is a prefix of the character-list `s`. -/
def leadsWith : List Char → List Char → Bool
  | [], _ => true
  | _ :: _, [] => false
  | p :: ps, c :: cs => p == c && leadsWith ps cs

/-- `pat` occurs as a contiguous substring of `s`
(JavaScript `String.prototype.includes`). -/
def hasSub : List Char → List Char → Bool
  | [], pat => pat.isEmpty
  | c :: rest, pat => leadsWith pat (c :: rest) || hasSub rest pat

/-- `s` ends with `pat` (JavaScript `String.prototype.endsWith`). -/
def trailsWith (s pat : List Char) : Bool :=
  leadsWith pat.reverse s.reverse

/-- ASCII lowercasing of a character list
(JavaScript `String.prototype.toLowerCase` restricted to ASCII). -/
def lowerChars (cs : List Char) : List Char :=
  cs.map Char.toLower

/-- The bytes of an ASCII string, used to build concrete test buffers. -/
def strBytes (s : String) : List Nat :=
  s.data.map Char.toNat

/-- `PDFValidator.MAX_FILE_SIZE = 50 * 1024 * 1024`. -/
def MAX_FILE_SIZE : Nat := 50 * 1024 * 1024

/-- `PDFValidator.PDF_MAGIC_NUMBER = Buffer.from('%PDF-')`: the bytes of
the string `%PDF-`. -/
def PDF_MAGIC_NUMBER : List Nat := strBytes "%PDF-"

/-- Result shape of `PDFValidator.validate`: `{ valid: boolean; error?: string }`. -/
structure ValidationResult where
  valid : Bool
  error : Option String
  deriving DecidableEq

/-- `PDFValidator.validate(buffer, filename)` from `src/unnamed/part_000`:
size check, emptiness check, magic-number check (`buffer.subarray(0, 5)`,
which is `take 5`), extension check, in that order, short-circuiting. -/
def validate (buffer : List Nat) (filename : String) : ValidationResult :=
  if MAX_FILE_SIZE < buffer.length then
    { valid := false, error := some "File too large. Maximum size is 50MB" }
  else if buffer.length = 0 then
    { valid := false, error := some "File is empty" }
  else if !(buffer.take 5 == PDF_MAGIC_NUMBER) then
    { valid := false, error := some "Invalid file format. Only PDF files are accepted." }
  else if !(trailsWith (lowerChars filename.data) ".pdf".data) then
    { valid := false, error := some "File must have .pdf extension" }
  else
    { valid := true, error := none }

/-- Result shape of `PDFValidator.securityScan`:
`{ safe: boolean; threats?: string[] }`. -/
structure ScanResult where
  safe : Bool
  threats : Option (List String)
  deriving DecidableEq

/-- The decoded, lowercased text the scanner searches:
`buffer.toString('utf-8').toLowerCase()`. -/
def bufferText (buffer : List Nat) : List Char :=
  lowerChars (buffer.map Char.ofNat)

/-- First marker family of `securityScan`:
`pdfText.includes('/javascript') || pdfText.includes('/js')`. -/
def jsMarkerHit (pdfText : List Char) : Bool :=
  hasSub pdfText "/javascript".data || hasSub pdfText "/js".data

/-- Second marker family: `pdfText.includes('/aa') || pdfText.includes('/openaction')`. -/
def autoMarkerHit (pdfText : List Char) : Bool :=
  hasSub pdfText "/aa".data || hasSub pdfText "/openaction".data

/-- Third marker family: `pdfText.includes('/launch')`. -/
def launchMarkerHit (pdfText : List Char) : Bool :=
  hasSub pdfText "/launch".data

/-- Fourth marker family: `pdfText.includes('/submitform')`. -/
def formMarkerHit (pdfText : List Char) : Bool :=
  hasSub pdfText "/submitform".data

/-- `PDFValidator.securityScan(buffer)` from `src/unnamed/part_000`: the four
marker families are tested one after the other with no early exit, each match
appending its label to the `threats` accumulator; `safe` is
`threats.length === 0` and the `threats` field is present only when non-empty. -/
def securityScan (buffer : List Nat) : ScanResult :=
  let pdfText := bufferText buffer
  let threats : List String :=
    (if jsMarkerHit pdfText then ["JavaScript detected"] else []) ++
    (if autoMarkerHit pdfText then ["Auto-action detected"] else []) ++
    (if launchMarkerHit pdfText then ["Launch action detected"] else []) ++
    (if formMarkerHit pdfText then ["Form submission detected"] else [])
  { safe := threats.length == 0
    threats := if 0 < threats.length then some threats else none }

/-- The `threats` list of a scan, reading the absent field as empty. -/
def scanThreats (buffer : List Nat) : List String :=
  ((securityScan buffer).threats).getD []

/-- The info dictionary fields that `extractMetadata` reads from the parsed
document (`metadata.info.Subject` etc.). Each is optional: absent models a
JavaScript `undefined` field. -/
structure PdfInfo where
  subject : Option String
  creator : Option String
  keywords : Option String
  producer : Option String
  deriving DecidableEq

/-- Result shape of `PDFValidator.extractMetadata`. -/
structure ExtractedIdentifiers where
  documentId : Option String
  institutionId : Option String
  documentHash : Option String
  signature : Option String
  deriving DecidableEq

/-- JavaScript `x || undefined` on an optional string field: an absent field
and a falsy (empty) string both become absent. -/
def orUndefined : Option String → Option String
  | some s => if s = "" then none else some s
  | none => none

/-- `PDFValidator.extractMetadata(buffer)` from `src/unnamed/part_000`.
The pdfjs parse of the buffer is an external effect; it is passed in as
`parsed`: `Except.error` models the `catch` branch (any internal parse
failure), `Except.ok info` models a successful parse with info dictionary
`info`. The function is total: it never raises to its caller; the `catch`
branch returns `{}`, i.e. the all-absent record. -/
def extractMetadata (parsed : Except Unit PdfInfo) : ExtractedIdentifiers :=
  match parsed with
  | .ok info =>
    { documentId := orUndefined info.subject
      institutionId := orUndefined info.creator
      documentHash := orUndefined info.keywords
      signature := orUndefined info.producer }
  | .error _ =>
    { documentId := none, institutionId := none, documentHash := none, signature := none }

example : validate (strBytes "%PDF-1.4") "doc.pdf" = { valid := true, error := none } := by decide

example : validate (strBytes "hello") "doc.pdf" =
    { valid := false, error := some "Invalid file format. Only PDF files are accepted." } := by decide

example : validate (strBytes "%PDF-1.4") "doc.txt" =
    { valid := false, error := some "File must have .pdf extension" } := by decide

example : validate [] "doc.pdf" = { valid := false, error := some "File is empty" } := by decide

example : securityScan (strBytes "/JavaScript") =
    { safe := false, threats := some ["JavaScript detected"] } := by decide

example : securityScan (strBytes "%PDF-1.4 hello") = { safe := true, threats := none } := by decide

example : securityScan (strBytes "/aa /launch") =
    { safe := false, threats := some ["Auto-action detected", "Launch action detected"] } := by decide

/-- The `institution` object of the authority's JSON response; only its
`name` field is read by the handler (`verificationResult.institution?.name`). -/
structure Institution where
  name : Option String
  deriving DecidableEq

/-- The `document` object of the authority's JSON response; only its `type`
field is read by the handler (`verificationResult.document?.type`). -/
structure DocumentInfo where
  type : Option String
  deriving DecidableEq

/-- The `checks` object of the authority's JSON response. -/
structure AuthorityChecks where
  signatureValid : Bool
  authorityValid : Bool
  notRevoked : Bool
  deriving DecidableEq

/-- The authority's JSON body (`verificationResult` in `verify.ts`), with the
fields the handler reads. Absent (`undefined`) fields are `none`. -/
structure AcadCertResult where
  status : Option String
  valid : Bool
  checks : Option AuthorityChecks
  institution : Option Institution
  document : Option DocumentInfo
  errors : Option (List String)
  revokedAt : Option String
  revokedBy : Option String
  reason : Option String
  deriving DecidableEq

/-- `getStatusMessage(result)` from `src/src/routes/verify.ts`: the if-chain
over the authority's `{status, valid, errors}`. -/
def getStatusMessage (result : AcadCertResult) : String :=
  if result.status == some "ACTIVE" && result.valid then
    "Valid Document - Issued by institution and currently active"
  else if result.status == some "REVOKED" then
    "Document Revoked - Issuing institution has invalidated this document"
  else if result.status == some "SUPERSEDED" then
    "Document Superseded - This document has been replaced by a newer version"
  else if !result.valid then
    match result.errors with
    | some (e :: _) => "Invalid Document - " ++ e
    | _ => "Invalid Document - Document has been tampered with or is not authentic"
  else
    "Document status could not be determined"

/-- The revocation sub-object `mapVerificationDetails` may attach:
`{revokedAt, revokedBy, reason}`. -/
structure RevocationDetails where
  revokedAt : String
  revokedBy : Option String
  reason : Option String
  deriving DecidableEq

/-- The `details` object built by `mapVerificationDetails`. -/
structure VerificationDetails where
  isValid : Bool
  revocation : Option RevocationDetails
  checks : Option AuthorityChecks
  errors : Option (List String)
  deriving DecidableEq

/-- `mapVerificationDetails(result)` from `src/src/routes/verify.ts`:
always sets `isValid`, attaches `revocation` when the status is `REVOKED` and
`revokedAt` is present, passes `checks` through when present, and attaches
`errors` when the list is present and non-empty. -/
def mapVerificationDetails (result : AcadCertResult) : VerificationDetails :=
  { isValid := result.valid
    revocation :=
      if result.status == some "REVOKED" then
        match result.revokedAt with
        | some ra => some { revokedAt := ra, revokedBy := result.revokedBy, reason := result.reason }
        | none => none
      else none
    checks := result.checks
    errors :=
      match result.errors with
      | some (e :: es) => some (e :: es)
      | _ => none }

/-- The `receipt` object of the success response. -/
structure Receipt where
  id : String
  documentId : String
  verifiedAt : String
  result : String
  checkSignature : Bool
  checkAuthority : Bool
  checkRevocation : Bool
  institution : String
  documentType : String
  deriving DecidableEq

/-- One JSON reply of the handler, as HTTP code plus the union of the fields
the various `reply.send` object literals can carry; a field not present in a
given literal is `none`. `verificationTriple` holds
`(cryptographicIntegrity, issuingAuthority, revocationStatus)`. -/
structure Response where
  code : Nat
  status : Option String := none
  valid : Option Bool := none
  message : Option String := none
  reason : Option String := none
  threats : Option (List String) := none
  detailsIsAcadCertDocument : Option Bool := none
  detailsDocumentId : Option String := none
  detailsHttpStatus : Option Nat := none
  documentId : Option String := none
  institutionId : Option String := none
  institution : Option Institution := none
  document : Option DocumentInfo := none
  verificationTriple : Option (Bool × Bool × Bool) := none
  details : Option VerificationDetails := none
  verifiedAt : Option String := none
  receipt : Option Receipt := none
  deriving DecidableEq

/-- The pipeline stages the handler can invoke, in source order:
`PDFValidator.validate`, `PDFValidator.securityScan`,
`PDFValidator.extractMetadata`, the outbound `fetch` to the authority. -/
inductive Stage where
  | structural
  | scanning
  | extraction
  | authorityCall
  deriving DecidableEq

/-- The uploaded multipart file: its bytes and declared filename. -/
structure FileUpload where
  bytes : List Nat
  filename : String
  deriving DecidableEq

/-- Outcome of the outbound `fetch` to the authority: either an HTTP response
with its status code and (when consumed) JSON body, or a thrown error
(network failure / body-parse failure), which the handler's outer `catch`
turns into the 500 reply. `response.ok` is derived from the status code as
the standard `200 ≤ status < 300`. -/
inductive FetchOutcome where
  | response (status : Nat) (body : AcadCertResult)
  | exn
  deriving DecidableEq

/-- JavaScript `x?.f || false` on an optional checks object. -/
def checkOr (checks : Option AuthorityChecks) (f : AuthorityChecks → Bool) : Bool :=
  match checks with
  | some c => f c
  | none => false

/-- JavaScript `x?.name || 'Unknown'`: absent object, absent field and empty
string all fall back to the default. -/
def nameOrUnknown (inst : Option Institution) : String :=
  match inst with
  | some i => match i.name with
    | some s => if s = "" then "Unknown" else s
    | none => "Unknown"
  | none => "Unknown"

/-- JavaScript `x?.type || 'Unknown'` for the document object. -/
def typeOrUnknown (doc : Option DocumentInfo) : String :=
  match doc with
  | some d => match d.type with
    | some s => if s = "" then "Unknown" else s
    | none => "Unknown"
  | none => "Unknown"

/-- The `POST /api/verify` handler from `src/src/routes/verify.ts`, as a pure
function of the request and the outcomes of its external effects, returning
the reply together with the list of pipeline stages invoked, in order.

Inputs standing for external effects: `parsed` is the pdfjs parse outcome
consumed by `extractMetadata`; `fetched` is the outcome of the single
outbound `fetch`; `nowTop` and `nowReceipt` are the two `new Date()`
timestamps of the success reply; `receiptHex` is the hex string produced by
`crypto.randomBytes(12).toString('hex')`. -/
def verifyHandler (file : Option FileUpload) (parsed : Except Unit PdfInfo)
    (fetched : FetchOutcome) (nowTop nowReceipt receiptHex : String) :
    Response × List Stage :=
  match file with
  | none =>
    ({ code := 400
       status := some "ERROR"
       message := some "No file uploaded. Please upload a PDF document." }, [])
  | some data =>
    let validation := validate data.bytes data.filename
    if !validation.valid then
      ({ code := 400
         status := some "INVALID"
         message := validation.error
         reason := some "File validation failed" }, [Stage.structural])
    else
      let securityCheck := securityScan data.bytes
      if !securityCheck.safe then
        ({ code := 400
           status := some "INVALID"
           message := some "Document contains potentially malicious content"
           threats := securityCheck.threats
           reason := some "Security check failed" }, [Stage.structural, Stage.scanning])
      else
        let metadata := extractMetadata parsed
        match metadata.documentId with
        | none =>
          ({ code := 200
             status := some "UNKNOWN"
             valid := some false
             message := some "This document does not appear to be an AcadCert credential"
             reason := some "No document ID found in metadata"
             detailsIsAcadCertDocument := some false },
           [Stage.structural, Stage.scanning, Stage.extraction])
        | some docId =>
          match fetched with
          | .exn =>
            ({ code := 500
               status := some "ERROR"
               valid := some false
               message := some "An error occurred during verification. Please try again."
               reason := some "Internal processing error" },
             [Stage.structural, Stage.scanning, Stage.extraction, Stage.authorityCall])
          | .response st body =>
            if !(200 ≤ st && st < 300) then
              if st == 404 then
                ({ code := 200
                   status := some "UNKNOWN"
                   valid := some false
                   message := some "Document not found in AcadCert system"
                   reason := some "Document ID not recognized"
                   detailsDocumentId := some docId },
                 [Stage.structural, Stage.scanning, Stage.extraction, Stage.authorityCall])
              else
                ({ code := 200
                   status := some "UNKNOWN"
                   valid := some false
                   message := some "Unable to verify document with issuing institution"
                   reason := some "Verification service unavailable"
                   detailsDocumentId := some docId
                   detailsHttpStatus := some st },
                 [Stage.structural, Stage.scanning, Stage.extraction, Stage.authorityCall])
            else
              ({ code := 200
                 status := body.status
                 valid := some body.valid
                 message := some (getStatusMessage body)
                 documentId := some docId
                 institutionId := metadata.institutionId
                 institution := some (body.institution.getD { name := none })
                 document := some (body.document.getD { type := none })
                 verificationTriple := some
                   (checkOr body.checks AuthorityChecks.signatureValid,
                    checkOr body.checks AuthorityChecks.authorityValid,
                    checkOr body.checks AuthorityChecks.notRevoked)
                 details := some (mapVerificationDetails body)
                 verifiedAt := some nowTop
                 receipt := some
                   { id := "rcpt_" ++ receiptHex
                     documentId := docId
                     verifiedAt := nowReceipt
                     result := if body.valid then "VALID" else "INVALID"
                     checkSignature := checkOr body.checks AuthorityChecks.signatureValid
                     checkAuthority := checkOr body.checks AuthorityChecks.authorityValid
                     checkRevocation := checkOr body.checks AuthorityChecks.notRevoked
                     institution := nameOrUnknown body.institution
                     documentType := typeOrUnknown body.document } },
               [Stage.structural, Stage.scanning, Stage.extraction, Stage.authorityCall])

/-- A buffer shorter than 5 bytes cannot match the 5-byte magic signature:
`subarray(0, 5)` then returns fewer than 5 bytes. -/
theorem take_five_ne_magic_of_short (b : List Nat) (h : b.length < 5) :
    ¬(b.take 5 = PDF_MAGIC_NUMBER) := by
  intro he
  have h5 : (b.take 5).length = 5 := by rw [he]; rfl
  rw [List.length_take] at h5
  omega

/-- Claim C9: with no multipart file present, the handler replies 400 with
status ERROR and the fixed message, and invokes no pipeline stage. -/
theorem c9_no_file_short_circuits (parsed : Except Unit PdfInfo) (fetched : FetchOutcome)
    (nowTop nowReceipt receiptHex : String) :
    (verifyHandler none parsed fetched nowTop nowReceipt receiptHex).1.code = 400 ∧
    (verifyHandler none parsed fetched nowTop nowReceipt receiptHex).1.status = some "ERROR" ∧
    (verifyHandler none parsed fetched nowTop nowReceipt receiptHex).1.message =
      some "No file uploaded. Please upload a PDF document." ∧
    (verifyHandler none parsed fetched nowTop nowReceipt receiptHex).2 = [] :=
  ⟨rfl, rfl, rfl, rfl⟩

/-- Claim C6: the Metadata Extractor is a total function of the parse outcome
(it never raises to its caller); any internal parse failure — and likewise a
successful parse of a container whose info dictionary carries none of the four
fields — yields the all-absent `ExtractedIdentifiers` record. -/
theorem c6_extract_never_raises (e : Unit) :
    extractMetadata (Except.error e) =
      { documentId := none, institutionId := none, documentHash := none, signature := none } ∧
    extractMetadata (Except.ok
        { subject := none, creator := none, keywords := none, producer := none }) =
      { documentId := none, institutionId := none, documentHash := none, signature := none } :=
  ⟨rfl, rfl⟩

/-- Claim C4: the Structural Validator's checks run in the fixed order
size → emptiness → magic number → extension, short-circuit on the first
failure, and report only the first triggered error; in particular every
non-empty in-size buffer that is shorter than 5 bytes or does not begin with
`%PDF-` is rejected with the invalid-format error. -/
theorem c4_validate_order (b : List Nat) (f : String) :
    (MAX_FILE_SIZE < b.length →
      validate b f = { valid := false, error := some "File too large. Maximum size is 50MB" }) ∧
    (b.length ≤ MAX_FILE_SIZE → b.length = 0 →
      validate b f = { valid := false, error := some "File is empty" }) ∧
    (b.length ≤ MAX_FILE_SIZE → b.length ≠ 0 → ¬(b.take 5 = PDF_MAGIC_NUMBER) →
      validate b f =
        { valid := false, error := some "Invalid file format. Only PDF files are accepted." }) ∧
    (b.length ≤ MAX_FILE_SIZE → b.length ≠ 0 → b.take 5 = PDF_MAGIC_NUMBER →
      trailsWith (lowerChars f.data) ".pdf".data = false →
      validate b f = { valid := false, error := some "File must have .pdf extension" }) ∧
    (b.length ≤ MAX_FILE_SIZE → b.length ≠ 0 → b.take 5 = PDF_MAGIC_NUMBER →
      trailsWith (lowerChars f.data) ".pdf".data = true →
      validate b f = { valid := true, error := none }) ∧
    (b.length ≤ MAX_FILE_SIZE → b.length ≠ 0 →
      (b.length < 5 ∨ ¬(b.take 5 = PDF_MAGIC_NUMBER)) →
      validate b f =
        { valid := false, error := some "Invalid file format. Only PDF files are accepted." }) := by
  have magicCase : b.length ≤ MAX_FILE_SIZE → b.length ≠ 0 → ¬(b.take 5 = PDF_MAGIC_NUMBER) →
      validate b f =
        { valid := false, error := some "Invalid file format. Only PDF files are accepted." } := by
    intro h1 h2 h3
    have h0 : ¬(MAX_FILE_SIZE < b.length) := Nat.not_lt.mpr h1
    simp [validate, h0, h2, h3]
  refine ⟨?_, ?_, magicCase, ?_, ?_, ?_⟩
  · intro h
    simp [validate, h]
  · intro h1 h2
    have h0 : ¬(MAX_FILE_SIZE < b.length) := Nat.not_lt.mpr h1
    simp [validate, h0, h2]
  · intro h1 h2 h3 h4
    have h0 : ¬(MAX_FILE_SIZE < b.length) := Nat.not_lt.mpr h1
    simp [validate, h0, h2, h3, h4]
  · intro h1 h2 h3 h4
    have h0 : ¬(MAX_FILE_SIZE < b.length) := Nat.not_lt.mpr h1
    simp [validate, h0, h2, h3, h4]
  · intro h1 h2 h3
    exact magicCase h1 h2 (h3.elim (fun hl => take_five_ne_magic_of_short b hl) id)

/-- Witness for C4: the one-byte buffer `%` with a `.pdf` filename is
non-empty, within the size limit and shorter than 5 bytes, and `validate`
rejects it with the invalid-format error. -/
theorem c4_validate_order_witness :
    (strBytes "%").length ≤ MAX_FILE_SIZE ∧ (strBytes "%").length ≠ 0 ∧
    (strBytes "%").length < 5 ∧
    validate (strBytes "%") "a.pdf" =
      { valid := false, error := some "Invalid file format. Only PDF files are accepted." } :=
  ⟨by decide, by decide, by decide,
   (c4_validate_order (strBytes "%") "a.pdf").2.2.2.2.2 (by decide) (by decide)
     (Or.inl (by decide))⟩

/-- Claim C5: a buffer of exactly 50 MiB (52428800 bytes) passes the size
check (the size-limit error is never reported for it), while a buffer one
byte over is rejected with the size-limit message. -/
theorem c5_size_boundary (b : List Nat) (f : String) :
    (b.length = 52428800 →
      (validate b f).error ≠ some "File too large. Maximum size is 50MB") ∧
    (b.length = 52428801 →
      validate b f = { valid := false, error := some "File too large. Maximum size is 50MB" }) := by
  constructor
  · intro h
    have h0 : ¬(MAX_FILE_SIZE < b.length) := by
      rw [h]; norm_num [MAX_FILE_SIZE]
    unfold validate
    rw [if_neg h0]
    split_ifs <;> decide
  · intro h
    have h0 : MAX_FILE_SIZE < b.length := by
      rw [h]; norm_num [MAX_FILE_SIZE]
    unfold validate
    rw [if_pos h0]

/-- Witness for C5: a buffer of exactly 52428800 zero bytes escapes the
size-limit error, and a buffer of 52428801 zero bytes is rejected with it. -/
theorem c5_size_boundary_witness :
    (List.replicate 52428800 (0 : Nat)).length = 52428800 ∧
    (validate (List.replicate 52428800 (0 : Nat)) "a.pdf").error ≠
      some "File too large. Maximum size is 50MB" ∧
    (List.replicate 52428801 (0 : Nat)).length = 52428801 ∧
    validate (List.replicate 52428801 (0 : Nat)) "a.pdf" =
      { valid := false, error := some "File too large. Maximum size is 50MB" } :=
  ⟨List.length_replicate 52428800 0,
   (c5_size_boundary (List.replicate 52428800 0) "a.pdf").1 (List.length_replicate 52428800 0),
   List.length_replicate 52428801 0,
   (c5_size_boundary (List.replicate 52428801 0) "a.pdf").2 (List.length_replicate 52428801 0)⟩

/-- Claim C3: the Threat Scanner checks all four marker families
independently and collects every match — membership of each threat label in
the collected list coincides with its own marker family matching, regardless
of the other families — and `safe` is true exactly when no marker matched;
each of the four markers in isolation yields exactly its own threat kind with
`safe = false`, and a buffer with no marker yields `safe = true` with no
threats list. -/
theorem c3_scan_independent_complete (bs : List Nat) :
    ((securityScan bs).safe = true ↔
      jsMarkerHit (bufferText bs) = false ∧ autoMarkerHit (bufferText bs) = false ∧
      launchMarkerHit (bufferText bs) = false ∧ formMarkerHit (bufferText bs) = false) ∧
    ("JavaScript detected" ∈ scanThreats bs ↔ jsMarkerHit (bufferText bs) = true) ∧
    ("Auto-action detected" ∈ scanThreats bs ↔ autoMarkerHit (bufferText bs) = true) ∧
    ("Launch action detected" ∈ scanThreats bs ↔ launchMarkerHit (bufferText bs) = true) ∧
    ("Form submission detected" ∈ scanThreats bs ↔ formMarkerHit (bufferText bs) = true) ∧
    securityScan (strBytes "/JavaScript") =
      { safe := false, threats := some ["JavaScript detected"] } ∧
    securityScan (strBytes "/AA") =
      { safe := false, threats := some ["Auto-action detected"] } ∧
    securityScan (strBytes "/OpenAction") =
      { safe := false, threats := some ["Auto-action detected"] } ∧
    securityScan (strBytes "/Launch") =
      { safe := false, threats := some ["Launch action detected"] } ∧
    securityScan (strBytes "/SubmitForm") =
      { safe := false, threats := some ["Form submission detected"] } ∧
    securityScan (strBytes "%PDF-1.4 plain body text") = { safe := true, threats := none } := by
  refine ⟨?_, ?_, ?_, ?_, ?_, by decide, by decide, by decide, by decide, by decide, by decide⟩ <;>
    (cases hj : jsMarkerHit (bufferText bs) <;>
     cases ha : autoMarkerHit (bufferText bs) <;>
     cases hl : launchMarkerHit (bufferText bs) <;>
     cases hf : formMarkerHit (bufferText bs) <;>
     simp [securityScan, scanThreats, hj, ha, hl, hf])

/-- Claim C10: the scan result's `threats` field is absent exactly when
`safe` is true; when `safe` is false it is the non-empty collected list,
without duplicate threat kinds, ordered as a subsequence of the fixed
sequence JavaScript, Auto-action, Launch, Form submission. -/
theorem c10_threats_field_shape (bs : List Nat) :
    ((securityScan bs).threats = none ↔ (securityScan bs).safe = true) ∧
    ((securityScan bs).safe = false →
      (securityScan bs).threats = some (scanThreats bs) ∧
      scanThreats bs ≠ [] ∧
      (scanThreats bs).Nodup ∧
      (scanThreats bs).Sublist
        ["JavaScript detected", "Auto-action detected", "Launch action detected",
         "Form submission detected"]) := by
  cases hj : jsMarkerHit (bufferText bs) <;>
  cases ha : autoMarkerHit (bufferText bs) <;>
  cases hl : launchMarkerHit (bufferText bs) <;>
  cases hf : formMarkerHit (bufferText bs) <;>
  simp [securityScan, scanThreats, hj, ha, hl, hf]

/-- Witness for C10: a buffer carrying the JavaScript and Launch markers is
unsafe, and its threats field is the ordered two-element list. -/
theorem c10_threats_field_shape_witness :
    (securityScan (strBytes "/JavaScript /Launch")).safe = false ∧
    (securityScan (strBytes "/JavaScript /Launch")).threats =
      some (scanThreats (strBytes "/JavaScript /Launch")) ∧
    scanThreats (strBytes "/JavaScript /Launch") ≠ [] ∧
    (scanThreats (strBytes "/JavaScript /Launch")).Nodup ∧
    (scanThreats (strBytes "/JavaScript /Launch")).Sublist
      ["JavaScript detected", "Auto-action detected", "Launch action detected",
       "Form submission detected"] :=
  ⟨by decide,
   (c10_threats_field_shape (strBytes "/JavaScript /Launch")).2 (by decide)⟩

/-- Claim C1: the pipeline short-circuits — when the Structural Validator
returns invalid only it has run (no scanner, extractor or authority call);
when the Threat Scanner reports unsafe only validator and scanner have run;
and the Metadata Extractor runs only for submissions that passed both. -/
theorem c1_pipeline_short_circuit (f : FileUpload) (parsed : Except Unit PdfInfo)
    (fetched : FetchOutcome) (nowTop nowReceipt receiptHex : String) :
    ((validate f.bytes f.filename).valid = false →
      (verifyHandler (some f) parsed fetched nowTop nowReceipt receiptHex).2 =
        [Stage.structural]) ∧
    ((validate f.bytes f.filename).valid = true → (securityScan f.bytes).safe = false →
      (verifyHandler (some f) parsed fetched nowTop nowReceipt receiptHex).2 =
        [Stage.structural, Stage.scanning]) ∧
    (Stage.extraction ∈ (verifyHandler (some f) parsed fetched nowTop nowReceipt receiptHex).2 →
      (validate f.bytes f.filename).valid = true ∧ (securityScan f.bytes).safe = true) := by
  refine ⟨?_, ?_, ?_⟩
  · intro hv
    simp [verifyHandler, hv]
  · intro hv hs
    simp [verifyHandler, hv, hs]
  · intro hmem
    cases hv : (validate f.bytes f.filename).valid with
    | false => simp [verifyHandler, hv] at hmem
    | true =>
      cases hs : (securityScan f.bytes).safe with
      | false => simp [verifyHandler, hv, hs] at hmem
      | true => exact ⟨rfl, rfl⟩

/-- Witness for C1: an empty upload fails validation and only the validator
stage runs; a well-formed PDF carrying the `/Launch` marker fails the scan
and exactly the validator and scanner stages run. -/
theorem c1_pipeline_short_circuit_witness :
    (validate [] "a.pdf").valid = false ∧
    (verifyHandler (some { bytes := [], filename := "a.pdf" })
        (Except.error ()) FetchOutcome.exn "" "" "").2 = [Stage.structural] ∧
    (validate (strBytes "%PDF- /Launch") "a.pdf").valid = true ∧
    (securityScan (strBytes "%PDF- /Launch")).safe = false ∧
    (verifyHandler (some { bytes := strBytes "%PDF- /Launch", filename := "a.pdf" })
        (Except.error ()) FetchOutcome.exn "" "" "").2 =
      [Stage.structural, Stage.scanning] :=
  ⟨by decide,
   (c1_pipeline_short_circuit { bytes := [], filename := "a.pdf" }
       (Except.error ()) FetchOutcome.exn "" "" "").1 (by decide),
   by decide, by decide,
   (c1_pipeline_short_circuit { bytes := strBytes "%PDF- /Launch", filename := "a.pdf" }
       (Except.error ()) FetchOutcome.exn "" "" "").2.1 (by decide) (by decide)⟩

/-- Claim C2: for a submission that passed validation and scanning, the three
ambiguous-document states are all 200 / UNKNOWN with distinguishable reasons:
absent documentId gives reason "No document ID found in metadata" with
`details.isAcadCertDocument = false`; an authority 404 gives reason
"Document ID not recognized"; any other non-success authority status gives
reason "Verification service unavailable" with the status in the details. -/
theorem c2_unknown_states (f : FileUpload) (parsed : Except Unit PdfInfo)
    (body : AcadCertResult) (st : Nat) (nowTop nowReceipt receiptHex : String)
    (hv : (validate f.bytes f.filename).valid = true)
    (hs : (securityScan f.bytes).safe = true) :
    ((extractMetadata parsed).documentId = none →
      ∀ fetched, (verifyHandler (some f) parsed fetched nowTop nowReceipt receiptHex).1 =
        { code := 200, status := some "UNKNOWN", valid := some false
          message := some "This document does not appear to be an AcadCert credential"
          reason := some "No document ID found in metadata"
          detailsIsAcadCertDocument := some false }) ∧
    (∀ docId, (extractMetadata parsed).documentId = some docId →
      (verifyHandler (some f) parsed (.response 404 body) nowTop nowReceipt receiptHex).1 =
        { code := 200, status := some "UNKNOWN", valid := some false
          message := some "Document not found in AcadCert system"
          reason := some "Document ID not recognized"
          detailsDocumentId := some docId }) ∧
    (∀ docId, (extractMetadata parsed).documentId = some docId →
      ¬(200 ≤ st ∧ st < 300) → st ≠ 404 →
      (verifyHandler (some f) parsed (.response st body) nowTop nowReceipt receiptHex).1 =
        { code := 200, status := some "UNKNOWN", valid := some false
          message := some "Unable to verify document with issuing institution"
          reason := some "Verification service unavailable"
          detailsDocumentId := some docId
          detailsHttpStatus := some st }) := by
  refine ⟨?_, ?_, ?_⟩
  · intro hm fetched
    simp [verifyHandler, hv, hs, hm]
  · intro docId hm
    simp [verifyHandler, hv, hs, hm]
  · intro docId hm hok h404
    have hb : ¬((200 ≤ st) && (st < 300) : Bool) = true := by
      simp only [Bool.and_eq_true, decide_eq_true_eq]
      exact fun hc => hok ⟨hc.1, hc.2⟩
    have hb4 : ¬((st == 404) = true) := by
      simp only [beq_iff_eq]
      exact h404
    simp [verifyHandler, hv, hs, hm, hb, hb4]

/-- Witness for C2: a minimal well-formed, safe PDF; with a failed parse the
reply is the not-a-credential UNKNOWN; with documentId `DOC1` an authority
404 gives the not-recognized UNKNOWN and an authority 503 the
service-unavailable UNKNOWN carrying the status. -/
theorem c2_unknown_states_witness :
    (validate (strBytes "%PDF-1") "doc.pdf").valid = true ∧
    (securityScan (strBytes "%PDF-1")).safe = true ∧
    (extractMetadata (Except.error ())).documentId = none ∧
    (verifyHandler (some { bytes := strBytes "%PDF-1", filename := "doc.pdf" })
        (Except.error ()) FetchOutcome.exn "" "" "").1 =
      { code := 200, status := some "UNKNOWN", valid := some false
        message := some "This document does not appear to be an AcadCert credential"
        reason := some "No document ID found in metadata"
        detailsIsAcadCertDocument := some false } ∧
    (extractMetadata (Except.ok
        { subject := some "DOC1", creator := none, keywords := none
          producer := none })).documentId = some "DOC1" ∧
    (verifyHandler (some { bytes := strBytes "%PDF-1", filename := "doc.pdf" })
        (Except.ok { subject := some "DOC1", creator := none, keywords := none, producer := none })
        (.response 404
          { status := none, valid := false, checks := none, institution := none
            document := none, errors := none, revokedAt := none, revokedBy := none
            reason := none }) "" "" "").1 =
      { code := 200, status := some "UNKNOWN", valid := some false
        message := some "Document not found in AcadCert system"
        reason := some "Document ID not recognized"
        detailsDocumentId := some "DOC1" } ∧
    (verifyHandler (some { bytes := strBytes "%PDF-1", filename := "doc.pdf" })
        (Except.ok { subject := some "DOC1", creator := none, keywords := none, producer := none })
        (.response 503
          { status := none, valid := false, checks := none, institution := none
            document := none, errors := none, revokedAt := none, revokedBy := none
            reason := none }) "" "" "").1 =
      { code := 200, status := some "UNKNOWN", valid := some false
        message := some "Unable to verify document with issuing institution"
        reason := some "Verification service unavailable"
        detailsDocumentId := some "DOC1"
        detailsHttpStatus := some 503 } :=
  ⟨by decide, by decide, by decide,
   (c2_unknown_states { bytes := strBytes "%PDF-1", filename := "doc.pdf" }
       (Except.error ())
       { status := none, valid := false, checks := none, institution := none
         document := none, errors := none, revokedAt := none, revokedBy := none
         reason := none } 0 "" "" "" (by decide) (by decide)).1 (by decide) FetchOutcome.exn,
   by decide,
   (c2_unknown_states { bytes := strBytes "%PDF-1", filename := "doc.pdf" }
       (Except.ok { subject := some "DOC1", creator := none, keywords := none, producer := none })
       { status := none, valid := false, checks := none, institution := none
         document := none, errors := none, revokedAt := none, revokedBy := none
         reason := none } 0 "" "" "" (by decide) (by decide)).2.1 "DOC1" (by decide),
   (c2_unknown_states { bytes := strBytes "%PDF-1", filename := "doc.pdf" }
       (Except.ok { subject := some "DOC1", creator := none, keywords := none, producer := none })
       { status := none, valid := false, checks := none, institution := none
         document := none, errors := none, revokedAt := none, revokedBy := none
         reason := none } 503 "" "" "" (by decide) (by decide)).2.2 "DOC1" (by decide)
     (by decide) (by decide)⟩

/-- Counterexample to C7: for an authority answer with `valid = false` and no
errors list (status neither ACTIVE, REVOKED nor SUPERSEDED), the code does
not fall through to the generic "Document status could not be determined"
message the claim predicts; it returns the distinct tampered-with message. -/
theorem c7_status_message_counterexample :
    getStatusMessage
        { status := some "PENDING", valid := false, checks := none, institution := none
          document := none, errors := none, revokedAt := none, revokedBy := none
          reason := none } =
      "Invalid Document - Document has been tampered with or is not authentic" ∧
    getStatusMessage
        { status := some "PENDING", valid := false, checks := none, institution := none
          document := none, errors := none, revokedAt := none, revokedBy := none
          reason := none } ≠
      "Document status could not be determined" := by
  constructor
  · rfl
  · decide

/-- Claim C7 as amended: on the VERIFIED path the message follows the fixed
precedence — ACTIVE with valid → the "Valid Document" message; REVOKED → the
revoked message; SUPERSEDED → the superseded message; valid false with a
non-empty errors list → "Invalid Document - " plus the first error; valid
false with an absent or empty errors list → the fixed
"Invalid Document - Document has been tampered with or is not authentic"
message; only with valid true and none of the three statuses → the generic
"Document status could not be determined" message — and `receipt.result` is
"VALID" exactly when the authority's `valid` field is true. -/
theorem c7_status_message_amended (r : AcadCertResult) (file : Option FileUpload)
    (parsed : Except Unit PdfInfo) (st : Nat) (nowTop nowReceipt receiptHex : String) :
    (r.status = some "ACTIVE" → r.valid = true →
      getStatusMessage r = "Valid Document - Issued by institution and currently active") ∧
    (r.status = some "REVOKED" →
      getStatusMessage r = "Document Revoked - Issuing institution has invalidated this document") ∧
    (r.status = some "SUPERSEDED" →
      getStatusMessage r =
        "Document Superseded - This document has been replaced by a newer version") ∧
    (∀ e es, r.valid = false → r.status ≠ some "REVOKED" → r.status ≠ some "SUPERSEDED" →
      r.errors = some (e :: es) → getStatusMessage r = "Invalid Document - " ++ e) ∧
    (r.valid = false → r.status ≠ some "REVOKED" → r.status ≠ some "SUPERSEDED" →
      (r.errors = none ∨ r.errors = some []) →
      getStatusMessage r =
        "Invalid Document - Document has been tampered with or is not authentic") ∧
    (r.valid = true → r.status ≠ some "ACTIVE" → r.status ≠ some "REVOKED" →
      r.status ≠ some "SUPERSEDED" →
      getStatusMessage r = "Document status could not be determined") ∧
    (∀ rc, (verifyHandler file parsed (.response st r) nowTop nowReceipt receiptHex).1.receipt =
        some rc → (rc.result = "VALID" ↔ r.valid = true)) := by
  refine ⟨?_, ?_, ?_, ?_, ?_, ?_, ?_⟩
  · intro h1 h2
    simp [getStatusMessage, h1, h2]
  · intro h1
    have hna : ¬(r.status == some "ACTIVE" && r.valid) = true := by simp [h1]
    simp [getStatusMessage, h1, hna]
  · intro h1
    have hna : ¬(r.status == some "ACTIVE" && r.valid) = true := by simp [h1]
    have hnr : ¬(r.status == some "REVOKED") = true := by simp [h1]
    simp [getStatusMessage, h1, hna, hnr]
  · intro e es h1 h2 h3 h4
    have hna : ¬(r.status == some "ACTIVE" && r.valid) = true := by simp [h1]
    have hnr : ¬(r.status == some "REVOKED") = true := by simp [h2]
    have hns : ¬(r.status == some "SUPERSEDED") = true := by simp [h3]
    simp [getStatusMessage, hna, hnr, hns, h1, h4]
  · intro h1 h2 h3 h4
    have hna : ¬(r.status == some "ACTIVE" && r.valid) = true := by simp [h1]
    have hnr : ¬(r.status == some "REVOKED") = true := by simp [h2]
    have hns : ¬(r.status == some "SUPERSEDED") = true := by simp [h3]
    rcases h4 with h4 | h4 <;> simp [getStatusMessage, hna, hnr, hns, h1, h4]
  · intro h1 h2 h3 h4
    have hna : ¬(r.status == some "ACTIVE" && r.valid) = true := by simp [h2]
    have hnr : ¬(r.status == some "REVOKED") = true := by simp [h3]
    have hns : ¬(r.status == some "SUPERSEDED") = true := by simp [h4]
    simp [getStatusMessage, hna, hnr, hns, h1, h2, h3, h4]
  · intro rc hrc
    cases file with
    | none => simp [verifyHandler] at hrc
    | some data =>
      cases hv : (validate data.bytes data.filename).valid with
      | false => simp [verifyHandler, hv] at hrc
      | true =>
        cases hs : (securityScan data.bytes).safe with
        | false => simp [verifyHandler, hv, hs] at hrc
        | true =>
          cases hm : (extractMetadata parsed).documentId with
          | none => simp [verifyHandler, hv, hs, hm] at hrc
          | some docId =>
            by_cases hok : ((200 ≤ st) && (st < 300) : Bool) = true
            · simp only [verifyHandler, hv, hs, hm, hok] at hrc
              simp at hrc
              cases hval : r.valid with
              | true => subst hrc; simp [hval]
              | false =>
                subst hrc
                simp only [hval, if_false]
                constructor
                · intro hbad; exact absurd hbad (by decide)
                · intro hbad; exact absurd hbad (by decide)
            · simp only [Bool.not_eq_true] at hok
              simp only [verifyHandler, hv, hs, hm, hok] at hrc
              simp at hrc
              split at hrc <;> simp at hrc

/-- Witness for the amended C7: a concrete ACTIVE/valid authority answer
yields the "Valid Document" message, and a full verified run over it yields a
receipt whose result is "VALID" exactly because the answer's `valid` is true. -/
theorem c7_status_message_amended_witness :
    ({ status := some "ACTIVE", valid := true, checks := some { signatureValid := true, authorityValid := true, notRevoked := true }
       institution := some { name := some "Uni" }, document := some { type := some "Certificate" }
       errors := none, revokedAt := none, revokedBy := none
       reason := none : AcadCertResult }).status = some "ACTIVE" ∧
    getStatusMessage
        { status := some "ACTIVE", valid := true, checks := some { signatureValid := true, authorityValid := true, notRevoked := true }
          institution := some { name := some "Uni" }, document := some { type := some "Certificate" }
          errors := none, revokedAt := none, revokedBy := none, reason := none } =
      "Valid Document - Issued by institution and currently active" ∧
    (verifyHandler (some { bytes := strBytes "%PDF-1", filename := "doc.pdf" })
        (Except.ok { subject := some "DOC1", creator := none, keywords := none, producer := none })
        (.response 200
          { status := some "ACTIVE", valid := true, checks := some { signatureValid := true, authorityValid := true, notRevoked := true }
            institution := some { name := some "Uni" }, document := some { type := some "Certificate" }
            errors := none, revokedAt := none, revokedBy := none, reason := none })
        "t1" "t2" "ab").1.receipt =
      some { id := "rcpt_ab", documentId := "DOC1", verifiedAt := "t2", result := "VALID"
             checkSignature := true, checkAuthority := true, checkRevocation := true
             institution := "Uni", documentType := "Certificate" } ∧
    (({ id := "rcpt_ab", documentId := "DOC1", verifiedAt := "t2", result := "VALID"
        checkSignature := true, checkAuthority := true, checkRevocation := true
        institution := "Uni", documentType := "Certificate" : Receipt }).result = "VALID" ↔
      ({ status := some "ACTIVE", valid := true, checks := some { signatureValid := true, authorityValid := true, notRevoked := true }
         institution := some { name := some "Uni" }, document := some { type := some "Certificate" }
         errors := none, revokedAt := none, revokedBy := none
         reason := none : AcadCertResult }).valid = true) :=
  ⟨rfl,
   (c7_status_message_amended
       { status := some "ACTIVE", valid := true, checks := some { signatureValid := true, authorityValid := true, notRevoked := true }
         institution := some { name := some "Uni" }, document := some { type := some "Certificate" }
         errors := none, revokedAt := none, revokedBy := none, reason := none }
       none (Except.error ()) 0 "" "" "").1 rfl rfl,
   by decide,
   (c7_status_message_amended
       { status := some "ACTIVE", valid := true, checks := some { signatureValid := true, authorityValid := true, notRevoked := true }
         institution := some { name := some "Uni" }, document := some { type := some "Certificate" }
         errors := none, revokedAt := none, revokedBy := none, reason := none }
       (some { bytes := strBytes "%PDF-1", filename := "doc.pdf" })
       (Except.ok { subject := some "DOC1", creator := none, keywords := none, producer := none })
       200 "t1" "t2" "ab").2.2.2.2.2.2
     { id := "rcpt_ab", documentId := "DOC1", verifiedAt := "t2", result := "VALID"
       checkSignature := true, checkAuthority := true, checkRevocation := true
       institution := "Uni", documentType := "Certificate" } (by decide)⟩

/-- A receipt with its per-call fields (`id` and `verifiedAt`) blanked. -/
def scrubReceipt (rc : Receipt) : Receipt :=
  { rc with id := "", verifiedAt := "" }

/-- A reply with its per-call fields blanked: the top-level `verifiedAt`
timestamp and the receipt's `id` and `verifiedAt`. -/
def scrubVolatile (r : Response) : Response :=
  { r with verifiedAt := none, receipt := r.receipt.map scrubReceipt }

/-- Claim C8: two runs of the handler on the same submission, parse outcome
and authority data — differing only in the timestamps and the random receipt
identifier — produce identical replies once the `verifiedAt` timestamps and
`receipt.id` are set aside. -/
theorem c8_idempotent_outcome_fields (file : Option FileUpload) (parsed : Except Unit PdfInfo)
    (fetched : FetchOutcome) (n1 n2 rid m1 m2 sid : String) :
    scrubVolatile (verifyHandler file parsed fetched n1 n2 rid).1 =
      scrubVolatile (verifyHandler file parsed fetched m1 m2 sid).1 := by
  cases file with
  | none => rfl
  | some data =>
    cases hv : (validate data.bytes data.filename).valid with
    | false => simp [verifyHandler, hv]
    | true =>
      cases hs : (securityScan data.bytes).safe with
      | false => simp [verifyHandler, hv, hs]
      | true =>
        cases hm : (extractMetadata parsed).documentId with
        | none => simp [verifyHandler, hv, hs, hm]
        | some docId =>
          cases fetched with
          | exn => simp [verifyHandler, hv, hs, hm]
          | response st body =>
            by_cases hok : ((200 ≤ st) && (st < 300) : Bool) = true
            · simp [verifyHandler, hv, hs, hm, hok, scrubVolatile, scrubReceipt]
            · simp only [Bool.not_eq_true] at hok
              simp [verifyHandler, hv, hs, hm, hok]
